import Mathlib

/-!
Shallow embedding of `custom_components/philips_airpurifier_coap/light.py`
(class `PhilipsLight`): the mapping between a discrete multi-level device
control and a dimmable-light abstraction, together with proofs about it.

Modelling conventions:
* Python integers are `ℤ`; Python `round` (banker's rounding, round half to
  even) on an exact quotient is `pyround` on `ℚ`.
* Optional descriptor fields (`medium`, `auto`) are `Option ℤ`; Python
  truthiness of such a field (`if self._auto:`) is `truthy`: `none` and
  `some 0` are falsy.
* The mutable entity attribute `_attr_effect` is `Option String`
  (`none` is Python `None`).
* `async_turn_on` can fall through all branches without assigning the local
  `value`, which raises `UnboundLocalError` when the write call evaluates it;
  this outcome is `WriteOutcome.unboundLocal` (no transport write happens).
  Otherwise the written payload is `WriteOutcome.write v` where `v : Option ℤ`
  (the code can pass Python `None` as the payload when `value = self._auto`
  and auto is unset).
-/

namespace Philips

/-- Modelled from the spec: value of the constant `SWITCH_AUTO` from
`const.py`, which is not under `src/`; the spec names the single effect
`"auto"`. -/
def SWITCH_AUTO : String := "auto"

/-- Value of Home Assistant's constant `EFFECT_OFF` (external collaborator),
the `"off"` effect. -/
def EFFECT_OFF : String := "off"

/-- The per-light configuration as found in `LIGHT_TYPES`, before the
normalization in `PhilipsLight.__init__`: `_on`/`_off` raw device values, the
optional medium/auto values, and the `DIMMABLE` entry, which is absent
(`none`) or an explicit boolean. -/
structure RawDescriptor where
  onValue : ℤ
  offValue : ℤ
  medium : Option ℤ
  auto : Option ℤ
  dimmable : Option Bool
deriving DecidableEq, Repr

/-- The state of a constructed `PhilipsLight` that the core logic touches:
the configured values after `__init__` and the mutable cached effect
`_attr_effect`. -/
structure Light where
  onValue : ℤ
  offValue : ℤ
  medium : Option ℤ
  auto : Option ℤ
  dimmable : Bool
  effect : Option String
deriving DecidableEq, Repr

/-- Python truthiness of an optional integer field: `None` and `0` are falsy
(`if self._auto:`, `if self._medium:`). -/
def truthy : Option ℤ → Bool
  | none => false
  | some v => v != 0

/-- Python 3 `round` to an integer on an exact rational: round half to even. -/
def pyround (q : ℚ) : ℤ :=
  if q - ⌊q⌋ = 1/2 then (if Even ⌊q⌋ then ⌊q⌋ else ⌊q⌋ + 1) else round q

/-- `PhilipsLight.__init__` (lines 95-121): copy the descriptor fields; when
`DIMMABLE` is absent (`self._dimmable is None`) force `dimmable := false`
and clear `medium` and `auto`; `_attr_effect` starts as `None` and becomes
`EFFECT_OFF` only when the light is dimmable and `auto` is truthy. -/
def mkLight (d : RawDescriptor) : Light :=
  match d.dimmable with
  | none =>
      { onValue := d.onValue, offValue := d.offValue, medium := none,
        auto := none, dimmable := false, effect := none }
  | some dim =>
      { onValue := d.onValue, offValue := d.offValue, medium := d.medium,
        auto := d.auto,
        dimmable := dim,
        effect := if dim ∧ truthy d.auto = true then some EFFECT_OFF
                  else none }

/-- `PhilipsLight.is_on`: the raw device value differs from `_off`. -/
def isOn (L : Light) (raw : ℤ) : Bool :=
  raw != L.offValue

/-- `PhilipsLight.brightness` (lines 145-168). Returns the reported
brightness together with the light state after the read (branch 2 mutates
`_attr_effect`). `raw` is `int(self._device_status.get(self.kind))`.
Note: `ℚ` division by zero yields `0` where Python would raise
`ZeroDivisionError` for `on = 0`; no theorem below touches that case. -/
def readBrightness (L : Light) (raw : ℤ) : Option ℤ × Light :=
  if L.dimmable = true then
    if truthy L.auto = true ∧ L.effect = some SWITCH_AUTO then
      (none, L)
    else if truthy L.auto = true ∧ truthy L.medium = true ∧
        L.auto = some raw then
      (none, { L with effect := some SWITCH_AUTO })
    else if truthy L.medium = true ∧ L.medium = some raw then
      (some 128, L)
    else
      (some (pyround (((255 * raw : ℤ) : ℚ) / (L.onValue : ℚ))), L)
  else
    (none, L)

/-- Outcome of `async_turn_on`: either a transport write of a payload (which
is `none` when the Python local `value` holds `None`), or an
`UnboundLocalError` raised when the write call evaluates `value` on a path
that never assigned it. -/
inductive WriteOutcome where
  | write (v : Option ℤ) : WriteOutcome
  | unboundLocal : WriteOutcome
deriving DecidableEq, Repr

/-- `PhilipsLight.async_turn_on` (lines 170-193). `eff` is the `ATTR_EFFECT`
kwarg, `bri` the `ATTR_BRIGHTNESS` kwarg. The cached effect is assigned
before the `== SWITCH_AUTO` test, so it is updated even on the path that
raises. -/
def turnOn (L : Light) (eff : Option String) (bri : Option ℤ) :
    Light × WriteOutcome :=
  match eff with
  | some e =>
      if e = SWITCH_AUTO then
        ({ L with effect := some e }, .write L.auto)
      else
        ({ L with effect := some e }, .unboundLocal)
  | none =>
      if L.dimmable = true then
        match bri with
        | some b =>
            if truthy L.medium = true ∧ b < 255 then
              (L, .write L.medium)
            else
              (L, .write (some (pyround (((L.onValue * b : ℤ) : ℚ) / (255 : ℚ)))))
        | none => (L, .write (some L.onValue))
      else
        (L, .write (some L.onValue))

/-- `PhilipsLight.async_turn_off` (lines 195-198): set the cached effect to
`EFFECT_OFF` and write `_off`. -/
def turnOff (L : Light) : Light × ℤ :=
  ({ L with effect := some EFFECT_OFF }, L.offValue)

/-- One user-visible operation on the entity, for state-machine claims. -/
inductive Op where
  | read (raw : ℤ) : Op
  | tOn (eff : Option String) (bri : Option ℤ) : Op
  | tOff : Op
deriving DecidableEq, Repr

/-- The state transition each operation performs on the light. -/
def stepOp (L : Light) : Op → Light
  | .read raw => (readBrightness L raw).2
  | .tOn e b => (turnOn L e b).1
  | .tOff => (turnOff L).1

/-- Run a sequence of operations from a starting state. -/
def runOps (L : Light) : List Op → Light
  | [] => L
  | op :: ops => runOps (stepOp L op) ops

/-- An operation whose effect argument, if any, is one of the two effect
strings the entity advertises. -/
def allowedOp : Op → Prop
  | .tOn (some e) _ => e = SWITCH_AUTO ∨ e = EFFECT_OFF
  | _ => True

instance : DecidablePred allowedOp := by
  intro op
  unfold allowedOp
  match op with
  | .read _ => exact inferInstance
  | .tOn none _ => exact inferInstance
  | .tOn (some _) _ => exact inferInstance
  | .tOff => exact inferInstance

/-- The descriptor of the spec's walk-through scenario:
`{on:2, off:0, medium:1, auto:3, dimmable:true}`, after construction, with
the initial cached effect `"off"`. -/
def scenarioLight : Light :=
  { onValue := 2, offValue := 0, medium := some 1, auto := some 3,
    dimmable := true, effect := some EFFECT_OFF }

/-- The scenario light once the cached effect has switched to `"auto"`. -/
def scenarioAuto : Light :=
  { scenarioLight with effect := some SWITCH_AUTO }

/-- A dimmable light with neither medium nor auto and a small `onValue`. -/
def dimOnlyTwo : Light :=
  { onValue := 2, offValue := 0, medium := none, auto := none,
    dimmable := true, effect := none }

lemma scenarioLight_eq_mkLight :
    mkLight ⟨2, 0, some 1, some 3, some true⟩ = scenarioLight := by
  simp [mkLight, scenarioLight, truthy, EFFECT_OFF]

/-- Rounding to nearest is off by at most one half. -/
lemma pyround_sub_abs (q : ℚ) : |(pyround q : ℚ) - q| ≤ 1/2 := by
  unfold pyround
  split_ifs with h1 h2
  · rw [abs_le]
    constructor <;> linarith
  · rw [abs_le]
    constructor <;> push_cast <;> linarith
  · rw [abs_sub_comm]
    exact abs_sub_round q

/-- Claim C7: `is_on` compares the raw device value with `offValue` and with
nothing else: it is true exactly when the raw value differs from `offValue`;
in particular it is false at `offValue` and true at `onValue`, at a configured
`mediumValue` and at a configured `autoValue` whenever those differ from
`offValue`, for every light state. -/
theorem claim_C7_isOn (L : Light) :
    (∀ v : ℤ, isOn L v = true ↔ v ≠ L.offValue) ∧
    isOn L L.offValue = false ∧
    (L.onValue ≠ L.offValue → isOn L L.onValue = true) ∧
    (∀ m : ℤ, L.medium = some m → m ≠ L.offValue → isOn L m = true) ∧
    (∀ a : ℤ, L.auto = some a → a ≠ L.offValue → isOn L a = true) := by
  refine ⟨fun v => by simp [isOn], by simp [isOn], fun h => by simp [isOn, h],
    fun m _ h => by simp [isOn, h], fun a _ h => by simp [isOn, h]⟩

/-- Witness for C7 at the scenario descriptor `{on:2, off:0, medium:1,
auto:3}`. -/
theorem claim_C7_isOn_witness :
    isOn scenarioLight 0 = false ∧ isOn scenarioLight 2 = true ∧
    isOn scenarioLight 1 = true ∧ isOn scenarioLight 3 = true := by
  obtain ⟨hiff, hoff, hon, hmed, haut⟩ := claim_C7_isOn scenarioLight
  exact ⟨hoff, hon (by decide), hmed 1 rfl (by decide), haut 3 rfl (by decide)⟩

/-- Claim C8: a non-dimmable light reports no brightness, whatever the raw
value and the cached effect, and the read leaves the state unchanged. -/
theorem claim_C8_nondimmable_brightness (L : Light) (raw : ℤ)
    (h : L.dimmable = false) :
    readBrightness L raw = (none, L) := by
  simp [readBrightness, h]

/-- Witness for C8 at a concrete non-dimmable light. -/
theorem claim_C8_witness :
    readBrightness ⟨1, 0, none, none, false, none⟩ 5 =
      (none, ⟨1, 0, none, none, false, none⟩) :=
  claim_C8_nondimmable_brightness ⟨1, 0, none, none, false, none⟩ 5 rfl

/-- Claim C9: a turn-on carrying an effect other than `"auto"` assigns the
cached effect and then raises `UnboundLocalError` (the local `value` was
never assigned), so no write reaches the transport while the state mutation
persists. -/
theorem claim_C9_unbound_local (L : Light) (e : String) (b : Option ℤ)
    (h : e ≠ SWITCH_AUTO) :
    turnOn L (some e) b =
      ({ L with effect := some e }, WriteOutcome.unboundLocal) := by
  simp [turnOn, h]

/-- Witness for C9: effect `"sleep"` on the scenario light. -/
theorem claim_C9_witness :
    turnOn scenarioLight (some "sleep") none =
      ({ scenarioLight with effect := some "sleep" },
        WriteOutcome.unboundLocal) :=
  claim_C9_unbound_local scenarioLight "sleep" none (by decide)

/-- Claim C10: when a turn-on carries both the effect `"auto"` and a
brightness, the effect branch wins: the written payload is `auto` as
configured (which is `None` when auto is absent), never a value derived from
the requested brightness. -/
theorem claim_C10_effect_precedence (L : Light) (b : ℤ) :
    turnOn L (some SWITCH_AUTO) (some b) =
      ({ L with effect := some SWITCH_AUTO }, WriteOutcome.write L.auto) := by
  simp [turnOn]

/-- Claim C2 (code bug): evaluating `async_turn_on` at a turn-on command with
effect `"sleep"` shows the code path: the cached effect becomes `"sleep"` and
the call ends in `UnboundLocalError` with no write, where the spec prescribes
writing `offValue` and caching effect `"off"`. -/
theorem claim_C2_code_eval :
    turnOn scenarioLight (some "sleep") none =
      ({ scenarioLight with effect := some "sleep" },
        WriteOutcome.unboundLocal) := by
  simp [turnOn, SWITCH_AUTO]

/-- Claim C1 (amended): the construction-time normalization fires only when
the `dimmable` entry is absent (`None`): then `dimmable` is forced to false,
`medium` and `auto` are cleared, every read reports no brightness, and a
turn-on with effect `"auto"` writes the absent (`None`) payload instead of a
configured auto value. -/
theorem claim_C1_normalization (d : RawDescriptor) (h : d.dimmable = none) :
    (mkLight d).dimmable = false ∧ (mkLight d).medium = none ∧
    (mkLight d).auto = none ∧
    (turnOn (mkLight d) (some SWITCH_AUTO) none).2 = WriteOutcome.write none ∧
    (∀ raw : ℤ, (readBrightness (mkLight d) raw).1 = none) := by
  simp [mkLight, h, turnOn, readBrightness]

/-- Witness for C1 at the descriptor `{on:2, off:0, medium:1, auto:3}` with
`dimmable` absent. -/
theorem claim_C1_witness :
    (mkLight ⟨2, 0, some 1, some 3, none⟩).medium = none ∧
    (mkLight ⟨2, 0, some 1, some 3, none⟩).auto = none ∧
    (turnOn (mkLight ⟨2, 0, some 1, some 3, none⟩)
      (some SWITCH_AUTO) none).2 = WriteOutcome.write none := by
  obtain ⟨_, hm, ha, hw, _⟩ := claim_C1_normalization ⟨2, 0, some 1, some 3, none⟩ rfl
  exact ⟨hm, ha, hw⟩

/-- Counterexample to C1 as stated: with `dimmable` explicitly false the
constructor does not clear `medium` and `auto` (the check is `is None`), and
a turn-on with effect `"auto"` still takes the auto branch and writes the
configured auto value `3`. -/
theorem claim_C1_counterexample :
    (mkLight ⟨2, 0, some 1, some 3, some false⟩).dimmable = false ∧
    (mkLight ⟨2, 0, some 1, some 3, some false⟩).medium = some 1 ∧
    (mkLight ⟨2, 0, some 1, some 3, some false⟩).auto = some 3 ∧
    (turnOn (mkLight ⟨2, 0, some 1, some 3, some false⟩)
      (some SWITCH_AUTO) none).2 = WriteOutcome.write (some 3) := by
  simp [mkLight, turnOn, truthy]

/-- Claim C5 (amended): for a dimmable light whose auto and medium values are
configured and non-zero (Python truthiness), reading a raw value equal to the
auto value while the cached effect is not `"auto"` returns no brightness and
mutates the cached effect to `"auto"`. -/
theorem claim_C5_auto_evidence (L : Light) (a m : ℤ)
    (hd : L.dimmable = true) (ha : L.auto = some a) (ha0 : a ≠ 0)
    (hm : L.medium = some m) (hm0 : m ≠ 0)
    (he : L.effect ≠ some SWITCH_AUTO) :
    readBrightness L a = (none, { L with effect := some SWITCH_AUTO }) := by
  simp [readBrightness, hd, ha, hm, truthy, ha0, hm0, he]

/-- Witness for C5: the scenario light reading raw value 3. -/
theorem claim_C5_witness :
    readBrightness scenarioLight 3 =
      (none, { scenarioLight with effect := some SWITCH_AUTO }) :=
  claim_C5_auto_evidence scenarioLight 3 1 rfl rfl (by decide) rfl (by decide)
    (by simp [scenarioLight, EFFECT_OFF, SWITCH_AUTO])

/-- Counterexample to C5 as stated: an auto value of `0` is configured but
falsy in Python, so the auto-evidence branch is skipped; the read falls
through to the linear scale, returns brightness `0` and leaves the cached
effect untouched. -/
theorem claim_C5_counterexample :
    (⟨2, 5, some 1, some 0, true, some EFFECT_OFF⟩ : Light).auto = some 0 ∧
    readBrightness ⟨2, 5, some 1, some 0, true, some EFFECT_OFF⟩ 0 =
      (some 0, ⟨2, 5, some 1, some 0, true, some EFFECT_OFF⟩) := by
  refine ⟨rfl, ?_⟩
  norm_num [readBrightness, truthy, pyround, round_eq, EFFECT_OFF, SWITCH_AUTO]

/-- Claim C3 (amended): on the scenario descriptor `{on:2, off:0, medium:1,
auto:3, dimmable:true}` starting from cached effect `"off"`: reading raw 3
returns no brightness and caches effect `"auto"`; the subsequent reads of
raw 1 and raw 2 then also return no brightness (the cached effect is now
`"auto"`), while from a state with cached effect `"off"` they return 128 and
255; the commands `SetEffect("auto")`, `SetBrightness(10)` and
`SetBrightness(255)` write 3, 1 and 2. -/
theorem claim_C3_scenario :
    readBrightness scenarioLight 3 = (none, scenarioAuto) ∧
    (readBrightness scenarioAuto 1).1 = none ∧
    (readBrightness scenarioAuto 2).1 = none ∧
    (readBrightness scenarioLight 1).1 = some 128 ∧
    (readBrightness scenarioLight 2).1 = some 255 ∧
    (turnOn scenarioAuto (some SWITCH_AUTO) none).2 =
      WriteOutcome.write (some 3) ∧
    (turnOn scenarioAuto none (some 10)).2 = WriteOutcome.write (some 1) ∧
    (turnOn scenarioAuto none (some 255)).2 = WriteOutcome.write (some 2) := by
  refine ⟨?_, ?_, ?_, ?_, ?_, ?_, ?_, ?_⟩ <;>
    simp [readBrightness, turnOn, scenarioLight, scenarioAuto, truthy,
      EFFECT_OFF, SWITCH_AUTO, pyround, round_eq] <;>
    norm_num [Int.even_iff]

/-- Counterexample to C3 as stated: after the read of raw 3 has cached the
effect `"auto"`, the next read of raw 1 returns no brightness, not 128. -/
theorem claim_C3_counterexample :
    (readBrightness (readBrightness scenarioLight 3).2 1).1 ≠ some 128 := by
  simp [readBrightness, scenarioLight, truthy, SWITCH_AUTO, EFFECT_OFF]

lemma readBrightness_effect (L : Light) (raw : ℤ) :
    (readBrightness L raw).2.effect = L.effect ∨
    (readBrightness L raw).2.effect = some SWITCH_AUTO := by
  unfold readBrightness
  split_ifs <;> simp

lemma turnOn_none_state (L : Light) (bri : Option ℤ) :
    (turnOn L none bri).1 = L := by
  unfold turnOn
  cases bri <;> simp <;> split_ifs <;> simp

lemma stepOp_effect (L : Light) (op : Op) (hop : allowedOp op)
    (hL : L.effect = some EFFECT_OFF ∨ L.effect = some SWITCH_AUTO) :
    (stepOp L op).effect = some EFFECT_OFF ∨
    (stepOp L op).effect = some SWITCH_AUTO := by
  cases op with
  | read raw =>
      rcases readBrightness_effect L raw with h | h <;>
        simp [stepOp, h] <;> tauto
  | tOn e b =>
      cases e with
      | none => simp [stepOp, turnOn_none_state, hL]
      | some s =>
          rcases hop with h | h <;> subst h <;>
            simp [stepOp, turnOn] <;> split_ifs <;> simp
  | tOff => simp [stepOp, turnOff]

lemma runOps_effect (ops : List Op) (L : Light)
    (hL : L.effect = some EFFECT_OFF ∨ L.effect = some SWITCH_AUTO)
    (hops : ∀ op ∈ ops, allowedOp op) :
    (runOps L ops).effect = some EFFECT_OFF ∨
    (runOps L ops).effect = some SWITCH_AUTO := by
  induction ops generalizing L with
  | nil => exact hL
  | cons op ops ih =>
      exact ih (stepOp L op)
        (stepOp_effect L op (hops op (by simp)) hL)
        (fun o ho => hops o (by simp [ho]))

/-- Claim C6 (amended): starting from the cached effect `"off"`, after any
sequence of reads, turn-ons and turn-offs in which every effect argument
passed to a turn-on is `"auto"` or `"off"`, the cached effect is `"off"` or
`"auto"`; a turn-on may carry an arbitrary effect string, which is cached
verbatim, so the restriction to the advertised effects is necessary. -/
theorem claim_C6_effect_invariant (L : Light) (ops : List Op)
    (hL : L.effect = some EFFECT_OFF)
    (hops : ∀ op ∈ ops, allowedOp op) :
    (runOps L ops).effect = some EFFECT_OFF ∨
    (runOps L ops).effect = some SWITCH_AUTO :=
  runOps_effect ops L (Or.inl hL) hops

/-- Witness for C6: the scenario light through a read, a turn-off and an
auto turn-on. -/
theorem claim_C6_witness :
    (runOps scenarioLight
      [Op.read 3, Op.tOff, Op.tOn (some SWITCH_AUTO) none]).effect =
        some EFFECT_OFF ∨
    (runOps scenarioLight
      [Op.read 3, Op.tOff, Op.tOn (some SWITCH_AUTO) none]).effect =
        some SWITCH_AUTO :=
  claim_C6_effect_invariant scenarioLight
    [Op.read 3, Op.tOff, Op.tOn (some SWITCH_AUTO) none] rfl
    (by intro op hop
        fin_cases hop <;> simp [allowedOp])

/-- Counterexample to C6 as stated: a single turn-on carrying the effect
`"sleep"` drives the cached effect to `"sleep"`, a third value. -/
theorem claim_C6_counterexample :
    ¬((runOps scenarioLight [Op.tOn (some "sleep") none]).effect =
        some EFFECT_OFF ∨
      (runOps scenarioLight [Op.tOn (some "sleep") none]).effect =
        some SWITCH_AUTO) := by
  simp [runOps, stepOp, turnOn, scenarioLight, SWITCH_AUTO, EFFECT_OFF]

lemma pyround_roundtrip_bound (N b : ℤ) (hN : 86 ≤ N) :
    |pyround (((255 * pyround (((N * b : ℤ) : ℚ) / 255) : ℤ) : ℚ) /
        (N : ℚ)) - b| ≤ 1 := by
  set x : ℚ := ((N * b : ℤ) : ℚ) / 255 with hx
  set w : ℤ := pyround x with hw
  set y : ℚ := ((255 * w : ℤ) : ℚ) / (N : ℚ) with hy
  set r : ℤ := pyround y with hr
  have hNZ : (0 : ℤ) < N := by omega
  have hNQ : (0 : ℚ) < (N : ℚ) := by exact_mod_cast hNZ
  have hN0 : (N : ℚ) ≠ 0 := ne_of_gt hNQ
  have h1 := pyround_sub_abs x
  have h2 := pyround_sub_abs y
  rw [← hw] at h1
  rw [← hr] at h2
  obtain ⟨h1a, h1b⟩ := abs_le.mp h1
  obtain ⟨h2a, h2b⟩ := abs_le.mp h2
  have e0 : (255 : ℚ) * x = (N : ℚ) * (b : ℚ) := by
    rw [hx]; push_cast; ring
  have e1 : (N : ℚ) * y = 255 * (w : ℚ) := by
    rw [hy]; push_cast; field_simp
  have key : (N : ℚ) * ((r : ℚ) - b) =
      (N : ℚ) * ((r : ℚ) - y) + 255 * ((w : ℚ) - x) := by
    linear_combination e1 + e0
  have k1 : (N : ℚ) * ((r : ℚ) - y) ≤ (N : ℚ) * (1 / 2) :=
    mul_le_mul_of_nonneg_left h2b (le_of_lt hNQ)
  have k2 : (N : ℚ) * (-(1 / 2)) ≤ (N : ℚ) * ((r : ℚ) - y) :=
    mul_le_mul_of_nonneg_left h2a (le_of_lt hNQ)
  have hNQ86 : (86 : ℚ) ≤ (N : ℚ) := by exact_mod_cast hN
  have up : (N : ℚ) * ((r : ℚ) - b) < (N : ℚ) * 2 := by linarith
  have dn : (N : ℚ) * (-2) < (N : ℚ) * ((r : ℚ) - b) := by linarith
  have up' : (r : ℚ) - b < 2 := by
    have := (mul_lt_mul_left hNQ).mp up
    linarith
  have dn' : (-2 : ℚ) < (r : ℚ) - b := by
    have := (mul_lt_mul_left hNQ).mp dn
    linarith
  have z1 : r - b < 2 := by exact_mod_cast (by push_cast; linarith : ((r - b : ℤ) : ℚ) < 2)
  have z2 : (-2 : ℤ) < r - b := by exact_mod_cast (by push_cast; linarith : (-2 : ℚ) < ((r - b : ℤ) : ℚ))
  rw [abs_le]
  omega

/-- Claim C4 (amended): for a dimmable light without medium and without auto
whose `onValue` is at least 86, and any brightness `b` in `[0, 255]`, the
value read back after `SetBrightness(b)` differs from `b` by at most 1. For
smaller non-zero `onValue` the round-trip error can exceed 1. -/
theorem claim_C4_roundtrip (N off b : ℤ) (hN : 86 ≤ N)
    (hb0 : 0 ≤ b) (hb : b ≤ 255) :
    ∃ w r : ℤ,
      (turnOn ⟨N, off, none, none, true, none⟩ none (some b)).2 =
        WriteOutcome.write (some w) ∧
      (readBrightness ⟨N, off, none, none, true, none⟩ w).1 = some r ∧
      |r - b| ≤ 1 := by
  refine ⟨pyround (((N * b : ℤ) : ℚ) / 255),
    pyround (((255 * pyround (((N * b : ℤ) : ℚ) / 255) : ℤ) : ℚ) / (N : ℚ)),
    ?_, ?_, pyround_roundtrip_bound N b hN⟩
  · simp [turnOn, truthy]
  · simp [readBrightness, truthy]

/-- Witness for C4 at `onValue = 100`, `b = 37`: the write value is 15, the
read-back is 38, off by one. -/
theorem claim_C4_witness :
    (turnOn ⟨100, 0, none, none, true, none⟩ none (some 37)).2 =
      WriteOutcome.write (some 15) ∧
    (readBrightness ⟨100, 0, none, none, true, none⟩ 15).1 = some 38 ∧
    |(38 : ℤ) - 37| ≤ 1 := by
  obtain ⟨w, r, h1, h2, h3⟩ :=
    claim_C4_roundtrip 100 0 37 (by decide) (by decide) (by decide)
  have ew : (turnOn (⟨100, 0, none, none, true, none⟩ : Light) none
      (some 37)).2 = WriteOutcome.write (some 15) := by
    norm_num [turnOn, truthy, pyround, round_eq, Int.fract, Int.even_iff]
  have hw : w = 15 := by
    rw [ew] at h1
    exact Option.some_injective ℤ (WriteOutcome.write.inj h1.symm)
  subst hw
  have er : (readBrightness (⟨100, 0, none, none, true, none⟩ : Light)
      15).1 = some 38 := by
    norm_num [readBrightness, truthy, pyround, round_eq, Int.fract,
      Int.even_iff]
  have hrv : r = 38 := by
    rw [er] at h2
    exact Option.some_injective ℤ h2.symm
  subst hrv
  exact ⟨ew, er, h3⟩

/-- Counterexample to C4 as stated: with `onValue = 2` (non-zero, dimmable,
no medium, no auto), `SetBrightness(10)` writes `round(2*10/255) = 0` and
reading back yields `round(255*0/2) = 0`, which differs from 10 by 10. -/
theorem claim_C4_counterexample :
    (turnOn dimOnlyTwo none (some 10)).2 = WriteOutcome.write (some 0) ∧
    (readBrightness dimOnlyTwo 0).1 = some 0 ∧
    ¬|(0 : ℤ) - 10| ≤ 1 := by
  refine ⟨?_, ?_, by decide⟩ <;>
    simp [turnOn, readBrightness, dimOnlyTwo, truthy, pyround, round_eq] <;>
    norm_num

end Philips
